import Mathlib

/-!
PC-docs: blog platform backend

A shallow embedding of `src/User.js`, `src/blogController.js` and
`src/postRoutes.js`.

* JSON values sent with `res.json` are values of `JVal`.
* The document store (MongoDB behind Mongoose) is an explicit `Store`; every
  handler is a total function from an environment, a store and a request to
  the store after the call and the response.
* An `await`ed data-layer call can reject; the handlers of the Blog controller
  wrap their body in `try / catch`.  The environment `Env` says, for each
  `await` site of a handler (numbered in source order from 0), whether that
  call rejects and with which message.
* `bcrypt` is an external package; it is a parameter (`Bcrypt`).
-/

namespace PCDocs

/-! ## JSON values and responses -/

/-- JSON values, as passed to `res.json`. -/
inductive JVal where
  | null : JVal
  | bool (b : Bool) : JVal
  | num (n : Nat) : JVal
  | str (s : String) : JVal
  | arr (xs : List JVal) : JVal
  | obj (fields : List (String × JVal)) : JVal

/-- The keys of a JSON object (no keys for a value that is not an object). -/
def JVal.keys : JVal → List String
  | .obj fields => fields.map Prod.fst
  | _ => []

/-- Field lookup in a JSON object. -/
def JVal.field (k : String) : JVal → Option JVal
  | .obj fields => fields.lookup k
  | _ => none

/-- An HTTP response: `res.status(status).json(body)`. -/
structure Response where
  status : Nat
  body : JVal

/-! ## Persisted records -/

/-- Modelled from the spec: the Category schema (`models/Category`) is not
among the sources; a Category is "referenced by id" and populated by `name`. -/
structure Category where
  _id : String
  name : String
deriving DecidableEq, Repr

/-- A User document, fields of `UserSchema` in `src/User.js`. -/
structure User where
  _id : String
  username : String
  email : String
  password : String
  role : String
  createdAt : Nat
deriving DecidableEq, Repr

/-- Modelled from the spec: the Blog schema (`models/Blog`) is not among the
sources; the spec gives the record shape
`Blog{title,content,category(ref),author(ref),createdAt,updatedAt}`.
`title`, `content` and `category` hold what the request supplied, which may
be absent. -/
structure Blog where
  _id : String
  title : Option String
  content : Option String
  category : Option String
  author : String
  createdAt : Nat
  updatedAt : Nat
deriving DecidableEq, Repr

/-- Modelled from the spec: the Post schema (`models/Post`) is not among the
sources; a Post has an identity and an `author`, and only its identity matters
to the delete route. -/
structure Post where
  _id : String
  author : String
deriving DecidableEq, Repr

/-- The document store: one list of documents per collection. -/
structure Store where
  users : List User
  categories : List Category
  blogs : List Blog
  posts : List Post
deriving DecidableEq, Repr

/-! ## Requests and environment -/

/-- The fields of `req.body` a client can send to the Blog routes.  A client
may send an `author` field; the controller never reads it. -/
structure ReqBody where
  title : Option String
  content : Option String
  category : Option String
  author : Option String
deriving DecidableEq, Repr

/-- The caller identity `req.user` attached by the authentication gate. -/
structure ReqUser where
  id : String
  role : String
deriving DecidableEq, Repr

/-- Route parameters `req.params`. -/
structure ReqParams where
  id : String
  categoryId : String
deriving DecidableEq, Repr

/-- A request as seen by a handler.  `validationErrors` is
`validationResult(req).array()`, computed by the validator chain that ran
before the handler; `user` is absent when no authentication gate ran. -/
structure Req where
  params : ReqParams
  body : ReqBody
  user : Option ReqUser
  validationErrors : List JVal

/-- What a handler gets from outside the store and the request.
`faults k = some m` means that the awaited data-layer call at site `k` of the
handler (sites numbered in source order from 0) rejects with an error whose
message is `m`; `now` is `Date.now()`; `newId` is the `_id` given to a created
document; `castMessage` is the message of the CastError with which the data
layer rejects a value that cannot be cast to an ObjectId. -/
structure Env where
  faults : Nat → Option String
  now : Nat
  newId : String
  castMessage : String

/-- The environment in which no data-layer call rejects. -/
def Env.calm (now : Nat) (newId : String) : Env :=
  ⟨fun _ => none, now, newId, "Cast to ObjectId failed"⟩

/-! ## Data layer -/

/-- Truthiness of an optional string, as in `if (category)`: `undefined` and
the empty string are falsy. -/
def truthy : Option String → Bool
  | none => false
  | some v => v != ""

/-- The call `Category.findById(id)`: the Category with that `_id`, if any;
`findById(undefined)` finds nothing. -/
def Category.findById (s : Store) (id : Option String) : Option Category :=
  match id with
  | none => none
  | some i => s.categories.find? (fun c => c._id == i)

/-- The call `Blog.findById(id)`. -/
def Blog.findById (s : Store) (id : String) : Option Blog :=
  s.blogs.find? (fun b => b._id == id)

/-- The call `Blog.create({title, content, category, author})`: the new
document, with the `_id` and the timestamps the data layer gives it. -/
def Blog.create (env : Env) (title content category : Option String) (author : String) : Blog :=
  { _id := env.newId, title := title, content := content, category := category,
    author := author, createdAt := env.now, updatedAt := env.now }

/-- Modelled from the spec: the update document `{title, content, category,
updatedAt}` is applied as a partial update ("applies a partial update"): a
field that is `undefined` is left as it is. -/
def Blog.applyUpdate (title content category : Option String) (updatedAt : Nat) (b : Blog) : Blog :=
  { b with
    title := if title.isSome then title else b.title
    content := if content.isSome then content else b.content
    category := if category.isSome then category else b.category
    updatedAt := updatedAt }

/-- Replace the first element satisfying `p` by its image under `f`. -/
def updateFirst {α : Type} (p : α → Bool) (f : α → α) : List α → List α
  | [] => []
  | a :: as => if p a then f a :: as else a :: updateFirst p f as

/-- Modelled from the spec: `category` is a "reference to Category", so the
data layer casts the `category` of an update document to an ObjectId before it
writes.  The empty string cannot be cast; every other category that reaches
`findByIdAndUpdate` in `updateBlog` is `undefined` or the `_id` of a stored
Category. -/
def castableCategory (category : Option String) : Bool :=
  category != some ""

/-- The call `Blog.findByIdAndUpdate(id, update, {new: true, runValidators:
true})`.  When the update document cannot be cast the call rejects with the
cast message and writes nothing; otherwise the result is the store after the
update and the updated document (`null` when none has that id).  What
`runValidators` checks on `title` and `content` depends on the Blog schema,
which is not among the sources; a failed validation is a rejection of the
await site in `Env`. -/
def Blog.findByIdAndUpdate (env : Env) (s : Store) (id : String)
    (title content category : Option String) (updatedAt : Nat) :
    Except String (Store × Option Blog) :=
  if castableCategory category then
    let upd := Blog.applyUpdate title content category updatedAt
    .ok ({ s with blogs := updateFirst (fun b => b._id == id) upd s.blogs },
         (Blog.findById s id).map upd)
  else .error env.castMessage

/-- The call `blog.deleteOne()`: removes the document with that `_id`. -/
def Blog.deleteOne (s : Store) (blog : Blog) : Store :=
  { s with blogs := s.blogs.eraseP (fun b => b._id == blog._id) }

/-- The call `Blog.find(filter)`: `Blog.find()` gives `none` as filter,
`Blog.find({category: c})` gives `some c`. -/
def Blog.find (s : Store) (category : Option String) : List Blog :=
  match category with
  | none => s.blogs
  | some c => s.blogs.filter (fun b => b.category == some c)

/-- The call `Post.findByIdAndDelete(id)`: removes the Post with that `_id`
if there is one. -/
def Post.findByIdAndDelete (s : Store) (id : String) : Store :=
  { s with posts := s.posts.eraseP (fun p => p._id == id) }

/-- Population `.populate('author', 'username')`: the referenced User reduced
to `_id` and `username`, `null` when the reference does not resolve. -/
def populateAuthor (s : Store) (author : String) : JVal :=
  match s.users.find? (fun u => u._id == author) with
  | some u => .obj [("_id", .str u._id), ("username", .str u.username)]
  | none => .null

/-- Population `.populate('category', 'name')`. -/
def populateCategory (s : Store) (category : String) : JVal :=
  match s.categories.find? (fun c => c._id == category) with
  | some c => .obj [("_id", .str c._id), ("name", .str c.name)]
  | none => .null

/-- An optional string field of a serialised document: absent when
`undefined`. -/
def optField (k : String) : Option String → List (String × JVal)
  | none => []
  | some v => [(k, .str v)]

/-- A Blog document with `author` and `category` populated, as serialised in
a response. -/
def Blog.populated (s : Store) (b : Blog) : JVal :=
  .obj ([("_id", .str b._id)] ++ optField "title" b.title ++ optField "content" b.content
    ++ (match b.category with
        | none => []
        | some c => [("category", populateCategory s c)])
    ++ [("author", populateAuthor s b.author),
        ("createdAt", .num b.createdAt), ("updatedAt", .num b.updatedAt)])

/-- Serialisation of a query result that may be `null`. -/
def populatedOrNull (s : Store) : Option Blog → JVal
  | none => .null
  | some b => Blog.populated s b

/-! ## Response builders used by the Blog controller -/

/-- The body `{success: false, message}` with status 404. -/
def notFound (message : String) : Response :=
  ⟨404, .obj [("success", .bool false), ("message", .str message)]⟩

/-- The `catch` branch: status 500 with
`{success: false, message: 'Server error', error: error.message}`. -/
def serverError (message : String) : Response :=
  ⟨500, .obj [("success", .bool false), ("message", .str "Server error"),
              ("error", .str message)]⟩

/-- The validation guard: status 400 with `{errors: errors.array()}`. -/
def validationFailed (errors : List JVal) : Response :=
  ⟨400, .obj [("errors", .arr errors)]⟩

/-- The list body `{success: true, count: blogs.length, data: blogs}` with
status 200. -/
def blogList (s : Store) (blogs : List Blog) : Response :=
  ⟨200, .obj [("success", .bool true), ("count", .num blogs.length),
              ("data", .arr (blogs.map (Blog.populated s)))]⟩

/-- The message of the TypeError thrown by `req.user.id` when `req.user` is
`undefined`. -/
def undefinedUserMessage : String :=
  "Cannot read properties of undefined (reading 'id')"

/-! ## Blog controller (`src/blogController.js`) -/

/-- Handler `getBlogs`, `GET /api/blogs`. -/
def getBlogs (env : Env) (s : Store) (_req : Req) : Store × Response :=
  match env.faults 0 with
  | some e => (s, serverError e)
  | none => (s, blogList s (Blog.find s none))

/-- Handler `getBlog`, `GET /api/blogs/:id`. -/
def getBlog (env : Env) (s : Store) (req : Req) : Store × Response :=
  match env.faults 0 with
  | some e => (s, serverError e)
  | none =>
    match Blog.findById s req.params.id with
    | none => (s, notFound "Blog not found")
    | some blog => (s, ⟨200, .obj [("success", .bool true), ("data", Blog.populated s blog)]⟩)

/-- Handler `createBlog`, `POST /api/blogs`.  Await sites: 0 is
`Category.findById`, 1 is `Blog.create`, 2 is the populated `Blog.findById`. -/
def createBlog (env : Env) (s : Store) (req : Req) : Store × Response :=
  if !req.validationErrors.isEmpty then
    (s, validationFailed req.validationErrors)
  else
    match env.faults 0 with
    | some e => (s, serverError e)
    | none =>
      match Category.findById s req.body.category with
      | none => (s, notFound "Category not found")
      | some _ =>
        match req.user with
        | none => (s, serverError undefinedUserMessage)
        | some user =>
          match env.faults 1 with
          | some e => (s, serverError e)
          | none =>
            let blog := Blog.create env req.body.title req.body.content req.body.category user.id
            let s1 : Store := { s with blogs := s.blogs ++ [blog] }
            match env.faults 2 with
            | some e => (s1, serverError e)
            | none =>
              (s1, ⟨201, .obj [("success", .bool true),
                               ("data", populatedOrNull s1 (Blog.findById s1 blog._id))]⟩)

/-- The block `if (category) { ... }` of `updateBlog`: when `category` is
truthy, `Category.findById` (await site 1) is called; the result is the
response that ends the handler there, if any. -/
def updateBlog.categoryGuard (env : Env) (s : Store) (req : Req) : Option Response :=
  if truthy req.body.category then
    match env.faults 1 with
    | some e => some (serverError e)
    | none =>
      match Category.findById s req.body.category with
      | none => some (notFound "Category not found")
      | some _ => none
  else none

/-- Handler `updateBlog`, `PUT /api/blogs/:id`.  Await sites: 0 is
`Blog.findById`, 1 is `Category.findById` (reached only when `category` is
truthy), 2 is `Blog.findByIdAndUpdate`. -/
def updateBlog (env : Env) (s : Store) (req : Req) : Store × Response :=
  if !req.validationErrors.isEmpty then
    (s, validationFailed req.validationErrors)
  else
    match env.faults 0 with
    | some e => (s, serverError e)
    | none =>
      match Blog.findById s req.params.id with
      | none => (s, notFound "Blog not found")
      | some _ =>
        match updateBlog.categoryGuard env s req with
        | some r => (s, r)
        | none =>
          match env.faults 2 with
          | some e => (s, serverError e)
          | none =>
            match Blog.findByIdAndUpdate env s req.params.id
              req.body.title req.body.content req.body.category env.now with
            | .error e => (s, serverError e)
            | .ok r =>
              (r.1, ⟨200, .obj [("success", .bool true), ("data", populatedOrNull r.1 r.2)]⟩)

/-- Handler `deleteBlog`, `DELETE /api/blogs/:id`.  Await sites: 0 is
`Blog.findById`, 1 is `blog.deleteOne`. -/
def deleteBlog (env : Env) (s : Store) (req : Req) : Store × Response :=
  match env.faults 0 with
  | some e => (s, serverError e)
  | none =>
    match Blog.findById s req.params.id with
    | none => (s, notFound "Blog not found")
    | some blog =>
      match env.faults 1 with
      | some e => (s, serverError e)
      | none =>
        (Blog.deleteOne s blog,
         ⟨200, .obj [("success", .bool true), ("message", .str "Blog deleted successfully")]⟩)

/-- Handler `getBlogsByCategory`, `GET /api/blogs/category/:categoryId`.
Await sites: 0 is `Category.findById`, 1 is `Blog.find`. -/
def getBlogsByCategory (env : Env) (s : Store) (req : Req) : Store × Response :=
  match env.faults 0 with
  | some e => (s, serverError e)
  | none =>
    match Category.findById s (some req.params.categoryId) with
    | none => (s, notFound "Category not found")
    | some _ =>
      match env.faults 1 with
      | some e => (s, serverError e)
      | none => (s, blogList s (Blog.find s (some req.params.categoryId)))

/-! ## Post routes (`src/postRoutes.js`) -/

/-- What an `async` route handler without `try / catch` does: it sends a
response, or its promise rejects with an error and the handler sends
nothing. -/
inductive Outcome where
  | responded (r : Response) : Outcome
  | threw (message : String) : Outcome

/-- The handler of `router.delete("/:id", auth, role("admin"), ...)`, reached
after both gates let the request pass.  `res.json` without `res.status`
answers with status 200.  Await site 0 is `Post.findByIdAndDelete`. -/
def router.delete (env : Env) (s : Store) (req : Req) : Store × Outcome :=
  match env.faults 0 with
  | some e => (s, .threw e)
  | none =>
    (Post.findByIdAndDelete s req.params.id,
     .responded ⟨200, .obj [("message", .str "Post deleted")]⟩)

/-! ## User model (`src/User.js`) -/

/-- The external `bcrypt` package, taken as a parameter: `genSalt rounds
entropy` is the salt drawn with the given randomness, `hash data salt` the
encoded salted hash, `compare data encrypted` the check of a candidate against
an encoded hash. -/
structure Bcrypt where
  genSalt : Nat → Nat → String
  hash : String → String → String
  compare : String → String → Bool

/-- The contract of `bcrypt.compare`: against a hash made with a generated
salt, a candidate matches exactly when hashing it with that salt gives the
same encoded hash. -/
def Bcrypt.Lawful (B : Bcrypt) : Prop :=
  ∀ rounds entropy data p,
    B.compare data (B.hash p (B.genSalt rounds entropy))
      = decide (B.hash data (B.genSalt rounds entropy) = B.hash p (B.genSalt rounds entropy))

/-- The least length `minlength: 6` of the `password` path. -/
def passwordMinLength : Nat := 6

/-- A User document in memory: its fields and the paths marked modified since
it was loaded or last saved. -/
structure UserDoc where
  fields : User
  modifiedPaths : List String
deriving DecidableEq, Repr

/-- The document method `this.isModified(path)`. -/
def UserDoc.isModified (this : UserDoc) (path : String) : Bool :=
  this.modifiedPaths.contains path

/-- The hook `UserSchema.pre('save', ...)`: nothing when `password` is not
modified; otherwise the password is replaced by its hash under a fresh salt
of 10 rounds. -/
def UserSchema.preSave (B : Bcrypt) (entropy : Nat) (this : UserDoc) : UserDoc :=
  if !this.isModified "password" then this
  else
    let salt := B.genSalt 10 entropy
    { this with fields := { this.fields with password := B.hash this.fields.password salt } }

/-- The method `UserSchema.methods.matchPassword`. -/
def UserSchema.methods.matchPassword (B : Bcrypt) (this : UserDoc)
    (enteredPassword : String) : Bool :=
  B.compare enteredPassword this.fields.password

/-! ## Shape of error bodies: definitions -/

/-- The handlers exported by the Blog controller. -/
inductive BlogHandler where
  | getBlogs | getBlog | createBlog | updateBlog | deleteBlog | getBlogsByCategory
deriving DecidableEq, Repr

/-- The handler function behind each export. -/
def BlogHandler.run : BlogHandler → Env → Store → Req → Store × Response
  | .getBlogs => PCDocs.getBlogs
  | .getBlog => PCDocs.getBlog
  | .createBlog => PCDocs.createBlog
  | .updateBlog => PCDocs.updateBlog
  | .deleteBlog => PCDocs.deleteBlog
  | .getBlogsByCategory => PCDocs.getBlogsByCategory

/-- The shape `{success: false, message, error?}`: `success` is `false`, a
`message` is present, and there is no key besides `success`, `message` and
`error`. -/
def errorShape (body : JVal) : Bool :=
  (match body.field "success" with
   | some (.bool false) => true
   | _ => false) &&
  (body.field "message").isSome &&
  body.keys.all (fun k => k == "success" || k == "message" || k == "error")

/-- A response is well shaped when its status is below 400, or it is 404 or
500 with a body of the error shape. -/
def Response.wellShaped (r : Response) : Prop :=
  r.status < 400 ∨ ((r.status = 404 ∨ r.status = 500) ∧ errorShape r.body = true)

/-! ## Responses named in the statements -/

/-- The success response of `deleteBlog`. -/
def blogDeleted : Response :=
  ⟨200, .obj [("success", .bool true), ("message", .str "Blog deleted successfully")]⟩

/-- The response of the Post delete route. -/
def postDeleted : Response :=
  ⟨200, .obj [("message", .str "Post deleted")]⟩

/-! ## Example data -/

/-- A store with two users, one category and one blog written by alice. -/
def exStore : Store :=
  { users := [⟨"u1", "alice", "alice@x.com", "hash", "author", 0⟩,
              ⟨"u2", "bob", "bob@x.com", "hash", "author", 0⟩]
    categories := [⟨"c1", "Tech"⟩]
    blogs := [⟨"b1", some "Hi", some "...", some "c1", "u1", 1, 1⟩]
    posts := [⟨"p1", "u1"⟩] }

/-- A request by `user` with the given route id and body, which passed
validation. -/
def exReq (id : String) (body : ReqBody) (user : String) : Req :=
  { params := ⟨id, id⟩, body := body, user := some ⟨user, "author"⟩, validationErrors := [] }

/-- The environment whose data-layer call at site `k` rejects with `m`. -/
def Env.failing (k : Nat) (m : String) : Env :=
  ⟨fun i => if i = k then some m else none, 5, "b2", "Cast to ObjectId failed"⟩

/-- A request for the absent category `c9` that carries one validation
error. -/
def exInvalidReq : Req :=
  { params := ⟨"", ""⟩, body := ⟨none, some "x", some "c9", none⟩,
    user := some ⟨"u1", "author"⟩,
    validationErrors := [.obj [("msg", .str "Title is required"), ("path", .str "title")]] }

/-- A store whose only Blog refers to a Category that is no longer stored. -/
def exDanglingStore : Store :=
  { users := [⟨"u1", "alice", "alice@x.com", "hash", "author", 0⟩]
    categories := []
    blogs := [⟨"b1", some "Hi", some "...", some "c1", "u1", 1, 1⟩]
    posts := [] }

/-- A small instance of `Bcrypt` used to evaluate the model: the salt is a
fixed marker and the hash is the salt followed by the data. -/
def toyBcrypt : Bcrypt :=
  { genSalt := fun _ _ => "$2b$10$"
    hash := fun data salt => salt ++ data
    compare := fun data encrypted => ("$2b$10$" ++ data) == encrypted }

/-- A new User document with password `p`: every path is marked modified. -/
def exNewUser (p : String) : UserDoc :=
  { fields := ⟨"u3", "carol", "carol@x.com", p, "author", 7⟩
    modifiedPaths := ["username", "email", "password", "role", "createdAt"] }

/-- A User document loaded from the store and not modified since. -/
def exLoadedUser : UserDoc :=
  { fields := ⟨"u1", "alice", "alice@x.com", "$2b$10$secret1", "author", 0⟩
    modifiedPaths := [] }

/-! ## Lemmas on the data layer -/

theorem category_findById_eq_none (s : Store) (id : Option String) :
    Category.findById s id = none ↔ ∀ c ∈ s.categories, id ≠ some c._id := by
  cases id with
  | none => simp [Category.findById]
  | some i =>
    simp only [Category.findById, List.find?_eq_none, beq_iff_eq, ne_eq, Option.some.injEq]
    constructor
    · intro h c hc heq; exact h c hc heq.symm
    · intro h c hc heq; exact h c hc heq.symm

theorem category_findById_some (s : Store) (id : Option String) (c : Category)
    (h : Category.findById s id = some c) : c ∈ s.categories ∧ id = some c._id := by
  cases id with
  | none => simp [Category.findById] at h
  | some i =>
    simp only [Category.findById] at h
    have h1 := List.find?_some h
    have h2 := List.mem_of_find?_eq_some h
    simp only [beq_iff_eq] at h1
    exact ⟨h2, by rw [h1]⟩

theorem blog_findById_eq_none (s : Store) (id : String) :
    Blog.findById s id = none ↔ ∀ b ∈ s.blogs, b._id ≠ id := by
  simp [Blog.findById, List.find?_eq_none]

theorem blog_findById_some (s : Store) (id : String) (b : Blog)
    (h : Blog.findById s id = some b) : b ∈ s.blogs ∧ b._id = id := by
  simp only [Blog.findById] at h
  have h1 := List.find?_some h
  simp only [beq_iff_eq] at h1
  exact ⟨List.mem_of_find?_eq_some h, h1⟩

theorem updateFirst_map {α β : Type} (p : α → Bool) (f : α → α) (g : α → β)
    (hg : ∀ a, g (f a) = g a) (l : List α) :
    (updateFirst p f l).map g = l.map g := by
  induction l with
  | nil => rfl
  | cons a as ih =>
    simp only [updateFirst]
    split
    · simp [hg]
    · simp [ih]

theorem find?_updateFirst {α : Type} (p : α → Bool) (f : α → α)
    (hp : ∀ a, p (f a) = p a) (l : List α) :
    (updateFirst p f l).find? p = (l.find? p).map f := by
  induction l with
  | nil => rfl
  | cons a as ih =>
    simp only [updateFirst]
    by_cases h : p a = true
    · have h2 : p (f a) = true := by rw [hp]; exact h
      simp [h, h2, List.find?_cons]
    · have h3 : p a = false := by simpa using h
      simp [h3, List.find?_cons, ih]

theorem findByIdAndUpdate_ok (env : Env) (s : Store) (id : String)
    (title content category : Option String) (now : Nat) (r : Store × Option Blog)
    (h : Blog.findByIdAndUpdate env s id title content category now = .ok r) :
    castableCategory category = true ∧
    r = ({ s with blogs := (updateFirst (fun b => b._id == id)
            (Blog.applyUpdate title content category now) s.blogs) },
         (Blog.findById s id).map (Blog.applyUpdate title content category now)) := by
  unfold Blog.findByIdAndUpdate at h
  split at h
  · rename_i hc
    injection h with h
    exact ⟨hc, h.symm⟩
  · cases h

theorem findByIdAndUpdate_error (env : Env) (s : Store) (id : String)
    (title content category : Option String) (now : Nat) (e : String)
    (h : Blog.findByIdAndUpdate env s id title content category now = .error e) :
    category = some "" ∧ e = env.castMessage := by
  unfold Blog.findByIdAndUpdate at h
  split at h
  · cases h
  · rename_i hc
    injection h with h
    refine ⟨?_, h.symm⟩
    simpa [castableCategory] using hc

theorem falsy_castable (category : Option String) (h1 : truthy category = false)
    (h2 : castableCategory category = true) : category = none := by
  cases category with
  | none => rfl
  | some v =>
    exfalso
    have hv : v = "" := by simpa [truthy] using h1
    subst hv
    simp [castableCategory] at h2

theorem updateBlog.categoryGuard_of_falsy (env : Env) (s : Store) (req : Req)
    (h : truthy req.body.category = false) :
    updateBlog.categoryGuard env s req = none := by
  simp [updateBlog.categoryGuard, h]

theorem updateBlog.categoryGuard_eq_none (env : Env) (s : Store) (req : Req)
    (h : updateBlog.categoryGuard env s req = none) :
    truthy req.body.category = false ∨
      ∃ c, Category.findById s req.body.category = some c := by
  unfold updateBlog.categoryGuard at h
  split at h
  · split at h
    · cases h
    · split at h
      · cases h
      · rename_i c hc
        exact Or.inr ⟨c, hc⟩
  · rename_i ht
    exact Or.inl (by simpa using ht)

/-! ## Claims about `createBlog` -/

/-- C1, as amended.  For every environment, store and request whose body
`category` identifies no existing Category, `createBlog` leaves the whole
store as it was (no record is persisted), and its response is decided by the
two guards that come before the category check: when validation errors are
present it is 400 with `{errors}`; otherwise, when `Category.findById`
rejects with message `e`, it is the 500 server error carrying `e`; otherwise
it is 404 with `{success: false, message: 'Category not found'}`. -/
theorem createBlog_absent_category (env : Env) (s : Store) (req : Req)
    (habsent : ∀ c ∈ s.categories, req.body.category ≠ some c._id) :
    (createBlog env s req).1 = s ∧
    (req.validationErrors ≠ [] →
      (createBlog env s req).2 = validationFailed req.validationErrors) ∧
    (req.validationErrors = [] → ∀ e, env.faults 0 = some e →
      (createBlog env s req).2 = serverError e) ∧
    (req.validationErrors = [] → env.faults 0 = none →
      (createBlog env s req).2 = notFound "Category not found") := by
  have hnone : Category.findById s req.body.category = none :=
    (category_findById_eq_none s req.body.category).2 habsent
  refine ⟨?_, ?_, ?_, ?_⟩
  · unfold createBlog
    split
    · rfl
    · split
      · rfl
      · rw [hnone]
  · intro hv
    unfold createBlog
    have : (!req.validationErrors.isEmpty) = true := by
      cases hl : req.validationErrors with
      | nil => exact absurd hl hv
      | cons a as => rfl
    rw [if_pos this]
  · intro hv e he
    unfold createBlog
    simp only [hv, List.isEmpty_nil, Bool.not_true, Bool.false_eq_true, if_false, he]
  · intro hv he
    unfold createBlog
    simp only [hv, List.isEmpty_nil, Bool.not_true, Bool.false_eq_true, if_false, he, hnone]

/-- Witness for C1: in the example store no Category has id `c9`; a request
for it that passed validation, with a calm data layer, is answered 404. -/
theorem createBlog_absent_category_witness :
    (createBlog (Env.calm 5 "b2") exStore
        (exReq "" ⟨some "T", some "x", some "c9", none⟩ "u1")).1 = exStore ∧
    (createBlog (Env.calm 5 "b2") exStore
        (exReq "" ⟨some "T", some "x", some "c9", none⟩ "u1")).2
      = notFound "Category not found" :=
  have h := createBlog_absent_category (Env.calm 5 "b2") exStore
    (exReq "" ⟨some "T", some "x", some "c9", none⟩ "u1") (by decide)
  ⟨h.1, h.2.2.2 rfl rfl⟩

/-- Counterexample to C1 as stated: the category `c9` of the request does not
exist in the example store, yet the response is not NotFound.  With a
validation error the status is 400 and the body is `{errors: [...]}`; with a
rejecting `Category.findById` the status is 500. -/
theorem createBlog_absent_category_not_always_404 :
    (∀ c ∈ exStore.categories, exInvalidReq.body.category ≠ some c._id) ∧
    (createBlog (Env.calm 5 "b2") exStore exInvalidReq).2.status = 400 ∧
    (createBlog (Env.calm 5 "b2") exStore exInvalidReq).2.body
      = .obj [("errors", .arr exInvalidReq.validationErrors)] ∧
    (createBlog (Env.failing 0 "connection lost") exStore
        (exReq "" ⟨some "T", some "x", some "c9", none⟩ "u1")).2.status = 500 :=
  ⟨by decide, rfl, rfl, rfl⟩

/-- C2.  The author of a stored Blog is its creator and never changes.
For every environment, store and request (whatever `req.body.author` holds):
`createBlog` either leaves the Blog collection as it was or appends one Blog
whose author is `req.user.id`; when it answers 201 it has appended that Blog,
built from the body's title, content and category; and `updateBlog` leaves the
`_id` and the `author` of every stored Blog, the target included, as they
were. -/
theorem blog_author_is_creator (env : Env) (s : Store) (req : Req) :
    ((createBlog env s req).1.blogs = s.blogs ∨
      ∃ u b, req.user = some u ∧ (createBlog env s req).1.blogs = s.blogs ++ [b] ∧
        b.author = u.id) ∧
    ((createBlog env s req).2.status = 201 →
      ∃ u, req.user = some u ∧
        (createBlog env s req).1.blogs = s.blogs ++
          [Blog.create env req.body.title req.body.content req.body.category u.id] ∧
        (Blog.create env req.body.title req.body.content req.body.category u.id).author
          = u.id) ∧
    (updateBlog env s req).1.blogs.map (fun b => (b._id, b.author))
      = s.blogs.map (fun b => (b._id, b.author)) := by
  refine ⟨?_, ?_, ?_⟩
  · unfold createBlog
    split
    · exact Or.inl rfl
    · split
      · exact Or.inl rfl
      · split
        · exact Or.inl rfl
        · split
          · exact Or.inl rfl
          · rename_i u hu
            split
            · exact Or.inl rfl
            · split
              · exact Or.inr ⟨u, _, hu, rfl, rfl⟩
              · exact Or.inr ⟨u, _, hu, rfl, rfl⟩
  · unfold createBlog
    split
    · intro h; simp [validationFailed] at h
    · split
      · intro h; simp [serverError] at h
      · split
        · intro h; simp [notFound] at h
        · split
          · intro h; simp [serverError] at h
          · rename_i u hu
            split
            · intro h; simp [serverError] at h
            · split
              · intro h; simp [serverError] at h
              · intro _; exact ⟨u, hu, rfl, rfl⟩
  · unfold updateBlog
    split
    · rfl
    · split
      · rfl
      · split
        · rfl
        · split
          · rfl
          · split
            · rfl
            · split
              · rfl
              · rename_i r hr
                obtain ⟨_, rfl⟩ := findByIdAndUpdate_ok _ _ _ _ _ _ _ _ hr
                exact updateFirst_map (fun b : Blog => b._id == req.params.id)
                  (Blog.applyUpdate req.body.title req.body.content req.body.category env.now)
                  (fun b : Blog => (b._id, b.author)) (fun _ => rfl) s.blogs

/-- Witness for C2: bob creates a Blog in the example store with a body that
names alice (`u1`) as author; the answer is 201 and the stored author is bob
(`u2`). -/
theorem blog_author_is_creator_witness :
    (createBlog (Env.calm 5 "b2") exStore
        (exReq "" ⟨some "T", some "x", some "c1", some "u1"⟩ "u2")).2.status = 201 ∧
    (createBlog (Env.calm 5 "b2") exStore
        (exReq "" ⟨some "T", some "x", some "c1", some "u1"⟩ "u2")).1.blogs
      = exStore.blogs ++ [⟨"b2", some "T", some "x", some "c1", "u2", 5, 5⟩] :=
  ⟨rfl,
   match (blog_author_is_creator (Env.calm 5 "b2") exStore
        (exReq "" ⟨some "T", some "x", some "c1", some "u1"⟩ "u2")).2.1 rfl with
   | ⟨_, hu, hb, _⟩ => by
     cases hu
     exact hb⟩

/-! ## Claims about `deleteBlog` and `updateBlog` -/

/-- C3, as amended.  For every environment, store and id:
when `Blog.findById` rejects with `e`, `deleteBlog` answers the 500 server
error carrying `e` and leaves the store as it was; when it does not reject,
the answer is 404 `{success: false, message: 'Blog not found'}` if and only
if no Blog has that id, and then the store is as it was; when a Blog has that
id and `deleteOne` rejects with `e`, the answer is the 500 server error and
the store is as it was; when a Blog has that id and no call rejects, the
answer is 200 with `{success: true, message: 'Blog deleted successfully'}`,
and the store differs from the old one only in the Blog collection, from
which exactly the found Blog (the first with that id) has been removed, every
other Blog staying in place. -/
theorem deleteBlog_cases (env : Env) (s : Store) (req : Req) :
    (∀ e, env.faults 0 = some e → deleteBlog env s req = (s, serverError e)) ∧
    (env.faults 0 = none →
      ((deleteBlog env s req).2 = notFound "Blog not found" ↔
        ∀ b ∈ s.blogs, b._id ≠ req.params.id)) ∧
    (env.faults 0 = none → (∀ b ∈ s.blogs, b._id ≠ req.params.id) →
      deleteBlog env s req = (s, notFound "Blog not found")) ∧
    (env.faults 0 = none → (∃ b ∈ s.blogs, b._id = req.params.id) →
      ∀ e, env.faults 1 = some e → deleteBlog env s req = (s, serverError e)) ∧
    (env.faults 0 = none → env.faults 1 = none → (∃ b ∈ s.blogs, b._id = req.params.id) →
      (deleteBlog env s req).2 = blogDeleted ∧
      ∃ b l₁ l₂, Blog.findById s req.params.id = some b ∧ b._id = req.params.id ∧
        (∀ x ∈ l₁, x._id ≠ req.params.id) ∧
        s.blogs = l₁ ++ b :: l₂ ∧
        (deleteBlog env s req).1 = { s with blogs := l₁ ++ l₂ }) := by
  have hsome : (∃ b ∈ s.blogs, b._id = req.params.id) →
      ∃ b, Blog.findById s req.params.id = some b := by
    intro ⟨b, hb, hid⟩
    cases h : Blog.findById s req.params.id with
    | none => exact absurd hid ((blog_findById_eq_none s _).1 h b hb)
    | some b0 => exact ⟨b0, rfl⟩
  refine ⟨?_, ?_, ?_, ?_, ?_⟩
  · intro e he
    simp only [deleteBlog, he]
  · intro h0
    constructor
    · intro h
      cases hf : Blog.findById s req.params.id with
      | none => exact (blog_findById_eq_none s _).1 hf
      | some b =>
        exfalso
        simp only [deleteBlog, h0, hf] at h
        cases h1 : env.faults 1 with
        | none => simp [h1, notFound] at h
        | some e => simp [h1, notFound, serverError] at h
    · intro h
      simp only [deleteBlog, h0, (blog_findById_eq_none s _).2 h]
  · intro h0 h
    simp only [deleteBlog, h0, (blog_findById_eq_none s _).2 h]
  · intro h0 hex e h1
    obtain ⟨b, hb⟩ := hsome hex
    simp only [deleteBlog, h0, hb, h1]
  · intro h0 h1 hex
    obtain ⟨b, hb⟩ := hsome hex
    have hid := (blog_findById_some s _ b hb).2
    refine ⟨by simp only [deleteBlog, h0, hb, h1, blogDeleted], ?_⟩
    have hp : (fun x : Blog => x._id == req.params.id) b = true := by simp [hid]
    obtain ⟨a, l₁, l₂, hl₁, ha, hl, her⟩ :=
      @List.exists_of_eraseP Blog (fun x : Blog => x._id == req.params.id) s.blogs b
        (blog_findById_some s _ b hb).1 hp
    have hab : a = b := by
      have hfind : Blog.findById s req.params.id = some a := by
        simp only [Blog.findById, hl]
        rw [List.find?_append]
        have h1 : List.find? (fun b => b._id == req.params.id) l₁ = none := by
          rw [List.find?_eq_none]; exact hl₁
        rw [h1]
        simp only [Option.none_or, List.find?_cons]
        rw [ha]
      rw [hb] at hfind
      exact (Option.some.inj hfind).symm
    subst hab
    refine ⟨a, l₁, l₂, hb, hid, ?_, hl, ?_⟩
    · intro x hx hxid
      exact hl₁ x hx (by simp [hxid])
    · simp only [deleteBlog, h0, hb, h1, Blog.deleteOne, hid, her]

/-- Witness for C3: with a calm data layer, deleting `b1` from the example
store answers 200 and empties the Blog collection. -/
theorem deleteBlog_cases_witness :
    (deleteBlog (Env.calm 5 "b2") exStore (exReq "b1" ⟨none, none, none, none⟩ "u1")).2
      = blogDeleted ∧
    (deleteBlog (Env.calm 5 "b2") exStore (exReq "b1" ⟨none, none, none, none⟩ "u1")).1.blogs
      = [] :=
  ⟨((deleteBlog_cases (Env.calm 5 "b2") exStore
      (exReq "b1" ⟨none, none, none, none⟩ "u1")).2.2.2.2 rfl rfl (by decide)).1, rfl⟩

/-- Counterexample to C3 as stated: no Blog of the example store has id `zz`,
yet when `Blog.findById` rejects the answer is 500, not 404; and `b1` exists,
yet when `deleteOne` rejects the answer is 500 and `b1` is still stored. -/
theorem deleteBlog_absent_not_always_404 :
    (∀ b ∈ exStore.blogs, b._id ≠ "zz") ∧
    (deleteBlog (Env.failing 0 "cast failed") exStore
        (exReq "zz" ⟨none, none, none, none⟩ "u1")).2.status = 500 ∧
    (∃ b ∈ exStore.blogs, b._id = "b1") ∧
    (deleteBlog (Env.failing 1 "connection lost") exStore
        (exReq "b1" ⟨none, none, none, none⟩ "u1")).2.status = 500 ∧
    (deleteBlog (Env.failing 1 "connection lost") exStore
        (exReq "b1" ⟨none, none, none, none⟩ "u1")).1 = exStore :=
  ⟨by decide, rfl, by decide, rfl, rfl⟩

/-- C4, the code at a failing input.  In the example store Blog `b1` was
written by alice (`u1`).  Bob (`u2`, role `author`, not `admin`) deletes it:
the answer is 200 and the Blog is gone.  Bob updates it: the answer is 200 and
the title is replaced.  Neither handler reads `req.user`: for every
environment, store and request the result is the same under any caller, and
the status is never 403. -/
theorem deleteBlog_updateBlog_ignore_caller :
    (Blog.findById exStore "b1").map (fun b => b.author) = some "u1" ∧
    (deleteBlog (Env.calm 5 "b2") exStore
        (exReq "b1" ⟨none, none, none, none⟩ "u2")).2.status = 200 ∧
    (deleteBlog (Env.calm 5 "b2") exStore
        (exReq "b1" ⟨none, none, none, none⟩ "u2")).1.blogs = [] ∧
    (updateBlog (Env.calm 5 "b2") exStore
        (exReq "b1" ⟨some "Taken over", none, none, none⟩ "u2")).2.status = 200 ∧
    (updateBlog (Env.calm 5 "b2") exStore
        (exReq "b1" ⟨some "Taken over", none, none, none⟩ "u2")).1.blogs
      = [⟨"b1", some "Taken over", some "...", some "c1", "u1", 1, 5⟩] ∧
    (∀ (env : Env) (s : Store) (req : Req) (caller : Option ReqUser),
      deleteBlog env s { req with user := caller } = deleteBlog env s req ∧
      updateBlog env s { req with user := caller } = updateBlog env s req ∧
      (deleteBlog env s req).2.status ≠ 403 ∧
      (updateBlog env s req).2.status ≠ 403) := by
  refine ⟨rfl, rfl, rfl, rfl, rfl, ?_⟩
  intro env s req caller
  refine ⟨rfl, rfl, ?_, ?_⟩
  · unfold deleteBlog
    split
    · simp [serverError]
    · split
      · simp [notFound]
      · split <;> simp [serverError]
  · unfold updateBlog
    split
    · simp [validationFailed]
    · split
      · simp [serverError]
      · split
        · simp [notFound]
        · split
          · rename_i r hr
            unfold updateBlog.categoryGuard at hr
            split at hr
            · split at hr
              · cases hr; simp [serverError]
              · split at hr
                · cases hr; simp [notFound]
                · cases hr
            · cases hr
          · split
            · simp [serverError]
            · split <;> simp [serverError]

/-! ## Category integrity -/

/-- C7, as amended.  For every environment, store and request:
neither handler writes the Category collection; after a `createBlog` answered
201 the appended Blog's category is the `_id` of a stored Category; after an
`updateBlog` answered 200 with a truthy `category` in the body, the target
Blog's category is the body's category and it is the `_id` of a stored
Category; after an `updateBlog` whose body `category` is falsy (absent or the
empty string) the existence check is skipped and the category of every stored
Blog is as before; an `updateBlog` answered 200 had a truthy category or none
at all.  For requests that passed validation, with no rejecting call:
`updateBlog` answers 404 `Blog not found` and changes nothing when the target
is absent; 404 `Category not found` and changes nothing when the target
exists and the truthy body category identifies no Category; and, when the
target exists and the body category is the empty string, the data layer
rejects the update document, the answer is the 500 server error carrying the
cast message, and nothing changes.  With validation errors it answers 400 and
changes nothing. -/
theorem blog_category_integrity (env : Env) (s : Store) (req : Req) :
    (createBlog env s req).1.categories = s.categories ∧
    (updateBlog env s req).1.categories = s.categories ∧
    ((createBlog env s req).2.status = 201 →
      ∃ c ∈ (createBlog env s req).1.categories, ∃ b,
        (createBlog env s req).1.blogs = s.blogs ++ [b] ∧ b.category = some c._id) ∧
    ((updateBlog env s req).2.status = 200 → truthy req.body.category = true →
      ∃ c ∈ (updateBlog env s req).1.categories, ∃ b,
        Blog.findById (updateBlog env s req).1 req.params.id = some b ∧
        b.category = req.body.category ∧ b.category = some c._id) ∧
    (truthy req.body.category = false →
      (updateBlog env s req).1.blogs.map (fun b => (b._id, b.category))
        = s.blogs.map (fun b => (b._id, b.category))) ∧
    ((updateBlog env s req).2.status = 200 →
      truthy req.body.category = true ∨ req.body.category = none) ∧
    (req.validationErrors = [] → env.faults 0 = none →
      (∀ b ∈ s.blogs, b._id ≠ req.params.id) →
      updateBlog env s req = (s, notFound "Blog not found")) ∧
    (req.validationErrors = [] → env.faults 0 = none → env.faults 1 = none →
      (∃ b ∈ s.blogs, b._id = req.params.id) → truthy req.body.category = true →
      (∀ c ∈ s.categories, req.body.category ≠ some c._id) →
      updateBlog env s req = (s, notFound "Category not found")) ∧
    (req.validationErrors = [] → env.faults 0 = none → env.faults 2 = none →
      (∃ b ∈ s.blogs, b._id = req.params.id) → req.body.category = some "" →
      updateBlog env s req = (s, serverError env.castMessage)) ∧
    (req.validationErrors ≠ [] →
      updateBlog env s req = (s, validationFailed req.validationErrors)) := by
  refine ⟨?_, ?_, ?_, ?_, ?_, ?_, ?_, ?_, ?_, ?_⟩
  · unfold createBlog
    repeat (first | rfl | split)
  · unfold updateBlog
    split
    · rfl
    · split
      · rfl
      · split
        · rfl
        · split
          · rfl
          · split
            · rfl
            · split
              · rfl
              · rename_i r hr
                obtain ⟨_, rfl⟩ := findByIdAndUpdate_ok _ _ _ _ _ _ _ _ hr
                rfl
  · unfold createBlog
    split
    · intro h; simp [validationFailed] at h
    · split
      · intro h; simp [serverError] at h
      · split
        · intro h; simp [notFound] at h
        · rename_i c hc
          split
          · intro h; simp [serverError] at h
          · split
            · intro h; simp [serverError] at h
            · split
              · intro h; simp [serverError] at h
              · intro _
                have hc2 := category_findById_some s _ c hc
                exact ⟨c, hc2.1, _, rfl, hc2.2⟩
  · unfold updateBlog
    split
    · intro h; simp [validationFailed] at h
    · split
      · intro h; simp [serverError] at h
      · split
        · intro h; simp [notFound] at h
        · rename_i b0 hb0
          split
          · rename_i r hr
            intro h ht
            exfalso
            unfold updateBlog.categoryGuard at hr
            rw [if_pos ht] at hr
            split at hr
            · cases hr; simp [serverError] at h
            · split at hr
              · cases hr; simp [notFound] at h
              · cases hr
          · rename_i hg
            split
            · intro h; simp [serverError] at h
            · split
              · intro h; simp [serverError] at h
              · rename_i r hr
                obtain ⟨_, rfl⟩ := findByIdAndUpdate_ok _ _ _ _ _ _ _ _ hr
                intro _ ht
                rcases updateBlog.categoryGuard_eq_none env s req hg with hf | ⟨c, hc⟩
                · rw [ht] at hf; cases hf
                · have hc2 := category_findById_some s _ c hc
                  have hsome : req.body.category.isSome = true := by rw [hc2.2]; rfl
                  refine ⟨c, hc2.1, Blog.applyUpdate req.body.title req.body.content
                    req.body.category env.now b0, ?_, ?_, ?_⟩
                  · simp only [Blog.findById]
                    rw [find?_updateFirst (fun b : Blog => b._id == req.params.id)
                      (Blog.applyUpdate req.body.title req.body.content req.body.category
                        env.now)
                      (fun _ => rfl)]
                    simp only [Blog.findById] at hb0
                    rw [hb0]; rfl
                  · simp only [Blog.applyUpdate, hsome, if_true]
                  · simp only [Blog.applyUpdate, hsome, if_true]
                    exact hc2.2
  · intro hfalsy
    unfold updateBlog
    split
    · rfl
    · split
      · rfl
      · split
        · rfl
        · split
          · rfl
          · split
            · rfl
            · split
              · rfl
              · rename_i r hr
                obtain ⟨hcast, rfl⟩ := findByIdAndUpdate_ok _ _ _ _ _ _ _ _ hr
                have hnone := falsy_castable _ hfalsy hcast
                exact updateFirst_map (fun b : Blog => b._id == req.params.id)
                  (Blog.applyUpdate req.body.title req.body.content req.body.category env.now)
                  (fun b : Blog => (b._id, b.category))
                  (fun b => by simp [Blog.applyUpdate, hnone]) s.blogs
  · unfold updateBlog
    split
    · intro h; simp [validationFailed] at h
    · split
      · intro h; simp [serverError] at h
      · split
        · intro h; simp [notFound] at h
        · split
          · rename_i r hr
            intro h
            exfalso
            unfold updateBlog.categoryGuard at hr
            split at hr
            · split at hr
              · cases hr; simp [serverError] at h
              · split at hr
                · cases hr; simp [notFound] at h
                · cases hr
            · cases hr
          · split
            · intro h; simp [serverError] at h
            · split
              · intro h; simp [serverError] at h
              · rename_i r hr
                obtain ⟨hcast, _⟩ := findByIdAndUpdate_ok _ _ _ _ _ _ _ _ hr
                intro _
                cases ht : truthy req.body.category with
                | true => exact Or.inl rfl
                | false => exact Or.inr (falsy_castable _ ht hcast)
  · intro hv h0 habs
    simp only [updateBlog, hv, List.isEmpty_nil, Bool.not_true, Bool.false_eq_true, if_false,
      h0, (blog_findById_eq_none s _).2 habs]
  · intro hv h0 h1 ⟨b, hb, hid⟩ ht hcat
    cases hf : Blog.findById s req.params.id with
    | none => exact absurd hid ((blog_findById_eq_none s _).1 hf b hb)
    | some b0 =>
      have hg : updateBlog.categoryGuard env s req = some (notFound "Category not found") := by
        simp only [updateBlog.categoryGuard, ht, if_true, h1,
          (category_findById_eq_none s _).2 hcat]
      simp only [updateBlog, hv, List.isEmpty_nil, Bool.not_true, Bool.false_eq_true, if_false,
        h0, hf, hg]
  · intro hv h0 h2 ⟨b, hb, hid⟩ hempty
    cases hf : Blog.findById s req.params.id with
    | none => exact absurd hid ((blog_findById_eq_none s _).1 hf b hb)
    | some b0 =>
      have hg : updateBlog.categoryGuard env s req = none :=
        updateBlog.categoryGuard_of_falsy env s req (by rw [hempty]; rfl)
      have hu : Blog.findByIdAndUpdate env s req.params.id req.body.title req.body.content
          req.body.category env.now = .error env.castMessage := by
        rw [hempty]; rfl
      simp only [updateBlog, hv, List.isEmpty_nil, Bool.not_true, Bool.false_eq_true, if_false,
        h0, hf, hg, h2, hu]
  · intro hv
    unfold updateBlog
    have : (!req.validationErrors.isEmpty) = true := by
      cases hl : req.validationErrors with
      | nil => exact absurd hl hv
      | cons a as => rfl
    rw [if_pos this]

/-- Witness for C7: bob moves Blog `b1` of the example store to the absent
category `c9`; the request passed validation and no call rejects; the answer
is 404 `Category not found` and the store is as it was. -/
theorem blog_category_integrity_witness :
    updateBlog (Env.calm 5 "b2") exStore (exReq "b1" ⟨none, none, some "c9", none⟩ "u2")
      = (exStore, notFound "Category not found") :=
  (blog_category_integrity (Env.calm 5 "b2") exStore
    (exReq "b1" ⟨none, none, some "c9", none⟩ "u2")).2.2.2.2.2.2.2.1
      rfl rfl rfl (by decide) rfl (by decide)

/-- Counterexample to C7 as stated.  (1) The target `zz` is absent and the
new category `c9` is absent, the request carries a validation error: the
answer is 400, not 404.  (2) The target `zz` is absent and `Blog.findById`
rejects: the answer is 500, not 404.  (3) In a store whose Blog `b1` refers to
a Category that is not stored, an update of the title alone answers 200 and the
written Blog still refers to the missing Category `c1`.  (4) The target `b1`
exists and the new category is the empty string, which identifies no
Category; the request passed validation and no await site rejects: the
existence check is skipped, the data layer rejects the update document, and
the answer is 500, not 404, with the store as it was. -/
theorem updateBlog_not_always_404_or_intact :
    (∀ b ∈ exStore.blogs, b._id ≠ "zz") ∧
    (∀ c ∈ exStore.categories, exInvalidReq.body.category ≠ some c._id) ∧
    (updateBlog (Env.calm 5 "b2") exStore
        { exInvalidReq with params := ⟨"zz", "zz"⟩ }).2.status = 400 ∧
    (updateBlog (Env.failing 0 "cast failed") exStore
        (exReq "zz" ⟨some "T", none, none, none⟩ "u1")).2.status = 500 ∧
    (updateBlog (Env.calm 5 "b2") exDanglingStore
        (exReq "b1" ⟨some "T", none, none, none⟩ "u1")).2.status = 200 ∧
    (updateBlog (Env.calm 5 "b2") exDanglingStore
        (exReq "b1" ⟨some "T", none, none, none⟩ "u1")).1.blogs
      = [⟨"b1", some "T", some "...", some "c1", "u1", 1, 5⟩] ∧
    (updateBlog (Env.calm 5 "b2") exDanglingStore
        (exReq "b1" ⟨some "T", none, none, none⟩ "u1")).1.categories = [] ∧
    (∃ b ∈ exStore.blogs, b._id = "b1") ∧
    (∀ c ∈ exStore.categories, (some "" : Option String) ≠ some c._id) ∧
    (updateBlog (Env.calm 5 "b2") exStore
        (exReq "b1" ⟨none, none, some "", none⟩ "u1")).2.status = 500 ∧
    (updateBlog (Env.calm 5 "b2") exStore
        (exReq "b1" ⟨none, none, some "", none⟩ "u1")).1 = exStore :=
  ⟨by decide, by decide, rfl, rfl, rfl, rfl, rfl, by decide, by decide, rfl, rfl⟩

/-! ## Listing by category -/

/-- C9, as amended.  For every environment, store and `categoryId`:
`getBlogsByCategory` never changes the store.  When `Category.findById`
rejects with `e` the answer is the 500 server error carrying `e`.  When it
does not reject and no Category has that id, the answer is 404
`Category not found`.  When a Category has that id and `Blog.find` rejects
with `e`, the answer is the 500 server error.  When a Category has that id and
no call rejects, the answer is 200 with `{success: true, count, data}` where
`data` lists, populated and in store order, exactly the stored Blogs whose
category is `categoryId`, and `count` is the length of `data`; when no Blog
has that category the body is `{success: true, count: 0, data: []}`. -/
theorem getBlogsByCategory_cases (env : Env) (s : Store) (req : Req) :
    (getBlogsByCategory env s req).1 = s ∧
    (∀ e, env.faults 0 = some e → (getBlogsByCategory env s req).2 = serverError e) ∧
    (env.faults 0 = none → (∀ c ∈ s.categories, c._id ≠ req.params.categoryId) →
      (getBlogsByCategory env s req).2 = notFound "Category not found") ∧
    (env.faults 0 = none → (∃ c ∈ s.categories, c._id = req.params.categoryId) →
      ∀ e, env.faults 1 = some e → (getBlogsByCategory env s req).2 = serverError e) ∧
    (env.faults 0 = none → env.faults 1 = none →
      (∃ c ∈ s.categories, c._id = req.params.categoryId) →
      ∃ matching : List Blog,
        (∀ b, b ∈ matching ↔ b ∈ s.blogs ∧ b.category = some req.params.categoryId) ∧
        matching = s.blogs.filter (fun b => b.category == some req.params.categoryId) ∧
        (getBlogsByCategory env s req).2 =
          ⟨200, .obj [("success", .bool true), ("count", .num matching.length),
                      ("data", .arr (matching.map (Blog.populated s)))]⟩ ∧
        ((∀ b ∈ s.blogs, b.category ≠ some req.params.categoryId) →
          (getBlogsByCategory env s req).2 =
            ⟨200, .obj [("success", .bool true), ("count", .num 0), ("data", .arr [])]⟩)) := by
  have habs : (∀ c ∈ s.categories, c._id ≠ req.params.categoryId) →
      Category.findById s (some req.params.categoryId) = none := by
    intro h
    rw [category_findById_eq_none]
    intro c hc heq
    exact h c hc (Option.some.inj heq).symm
  have hex : (∃ c ∈ s.categories, c._id = req.params.categoryId) →
      ∃ c, Category.findById s (some req.params.categoryId) = some c := by
    intro ⟨c, hc, hid⟩
    cases h : Category.findById s (some req.params.categoryId) with
    | none =>
      exact absurd (by rw [hid]) ((category_findById_eq_none s _).1 h c hc)
    | some c0 => exact ⟨c0, rfl⟩
  refine ⟨?_, ?_, ?_, ?_, ?_⟩
  · unfold getBlogsByCategory
    repeat (first | rfl | split)
  · intro e he
    simp only [getBlogsByCategory, he]
  · intro h0 h
    simp only [getBlogsByCategory, h0, habs h]
  · intro h0 h e h1
    obtain ⟨c, hc⟩ := hex h
    simp only [getBlogsByCategory, h0, hc, h1]
  · intro h0 h1 h
    obtain ⟨c, hc⟩ := hex h
    refine ⟨s.blogs.filter (fun b => b.category == some req.params.categoryId), ?_, rfl, ?_, ?_⟩
    · intro b
      simp [List.mem_filter]
    · simp only [getBlogsByCategory, h0, hc, h1, blogList, Blog.find]
    · intro hno
      have hnil : s.blogs.filter (fun b => b.category == some req.params.categoryId) = [] := by
        rw [List.filter_eq_nil_iff]
        intro b hb
        simpa using hno b hb
      simp only [getBlogsByCategory, h0, hc, h1, blogList, Blog.find, hnil, List.length_nil,
        List.map_nil]

/-- Witness for C9: category `c1` of the example store holds Blog `b1`; with a
calm data layer the answer is 200 with count 1 and the populated Blog. -/
theorem getBlogsByCategory_cases_witness :
    ∃ matching : List Blog,
      matching = [⟨"b1", some "Hi", some "...", some "c1", "u1", 1, 1⟩] ∧
      (getBlogsByCategory (Env.calm 5 "b2") exStore
          (exReq "c1" ⟨none, none, none, none⟩ "u1")).2 =
        ⟨200, .obj [("success", .bool true), ("count", .num matching.length),
                    ("data", .arr (matching.map (Blog.populated exStore)))]⟩ :=
  match (getBlogsByCategory_cases (Env.calm 5 "b2") exStore
      (exReq "c1" ⟨none, none, none, none⟩ "u1")).2.2.2.2 rfl rfl (by decide) with
  | ⟨matching, _, hm, hr, _⟩ => ⟨matching, by rw [hm]; rfl, hr⟩

/-- Counterexample to C9 as stated: category `c1` exists in the example store,
yet the answer is 500 when `Blog.find` rejects, and also when
`Category.findById` rejects; and no Category has id `zz`, yet the answer is
500, not 404, when `Category.findById` rejects. -/
theorem getBlogsByCategory_not_always_200 :
    (∃ c ∈ exStore.categories, c._id = "c1") ∧
    (getBlogsByCategory (Env.failing 1 "connection lost") exStore
        (exReq "c1" ⟨none, none, none, none⟩ "u1")).2.status = 500 ∧
    (getBlogsByCategory (Env.failing 0 "connection lost") exStore
        (exReq "c1" ⟨none, none, none, none⟩ "u1")).2.status = 500 ∧
    (∀ c ∈ exStore.categories, c._id ≠ "zz") ∧
    (getBlogsByCategory (Env.failing 0 "cast failed") exStore
        (exReq "zz" ⟨none, none, none, none⟩ "u1")).2.status = 500 :=
  ⟨by decide, rfl, rfl, by decide, rfl⟩

/-! ## Deleting a Post -/

/-- C8, as amended.  For every environment whose `Post.findByIdAndDelete`
does not reject, every store and every id: the Post delete handler responds
200 with `{message: 'Post deleted'}`, whether or not a Post with that id
exists; when none exists the store is left as it was; when one exists, the
store differs only in the Post collection, from which that Post has been
removed.  In every environment, a response sent by the handler has status
200, so NotFound is never signalled. -/
theorem post_delete_cases (env : Env) (s : Store) (req : Req) :
    (env.faults 0 = none →
      (router.delete env s req).2 = .responded postDeleted ∧
      ((∀ p ∈ s.posts, p._id ≠ req.params.id) → (router.delete env s req).1 = s) ∧
      ((∃ p ∈ s.posts, p._id = req.params.id) →
        ∃ p l₁ l₂, p._id = req.params.id ∧ (∀ x ∈ l₁, x._id ≠ req.params.id) ∧
          s.posts = l₁ ++ p :: l₂ ∧
          (router.delete env s req).1 = { s with posts := l₁ ++ l₂ })) ∧
    (∀ r, (router.delete env s req).2 = .responded r → r = postDeleted) := by
  refine ⟨?_, ?_⟩
  · intro h0
    refine ⟨by simp only [router.delete, h0, postDeleted], ?_, ?_⟩
    · intro h
      have : s.posts.eraseP (fun p => p._id == req.params.id) = s.posts := by
        apply List.eraseP_of_forall_not
        intro p hp
        simpa using h p hp
      simp only [router.delete, h0, Post.findByIdAndDelete, this]
    · intro ⟨p, hp, hid⟩
      have hpp : (fun x : Post => x._id == req.params.id) p = true := by simp [hid]
      obtain ⟨a, l₁, l₂, hl₁, ha, hl, her⟩ :=
        @List.exists_of_eraseP Post (fun x : Post => x._id == req.params.id) s.posts p hp hpp
      refine ⟨a, l₁, l₂, by simpa using ha, ?_, hl, ?_⟩
      · intro x hx hxid
        exact hl₁ x hx (by simp [hxid])
      · simp only [router.delete, h0, Post.findByIdAndDelete, her]
  · intro r hr
    unfold router.delete at hr
    split at hr
    · cases hr
    · cases hr; rfl

/-- Witness for C8: with a calm data layer, deleting the absent id `zz` and
deleting the present id `p1` are answered alike, and the first leaves the
example store as it was. -/
theorem post_delete_cases_witness :
    (router.delete (Env.calm 5 "b2") exStore (exReq "zz" ⟨none, none, none, none⟩ "u1")).2
      = .responded postDeleted ∧
    (router.delete (Env.calm 5 "b2") exStore (exReq "zz" ⟨none, none, none, none⟩ "u1")).1
      = exStore ∧
    (router.delete (Env.calm 5 "b2") exStore (exReq "p1" ⟨none, none, none, none⟩ "u1")).2
      = .responded postDeleted :=
  have h := (post_delete_cases (Env.calm 5 "b2") exStore
    (exReq "zz" ⟨none, none, none, none⟩ "u1")).1 rfl
  ⟨h.1, h.2.1 (by decide), rfl⟩

/-- Counterexample to C8 as stated: no Post of the example store has id `zz`,
yet when `Post.findByIdAndDelete` rejects the handler, which has no `catch`,
sends no response at all: the rejection leaves the handler. -/
theorem post_delete_absent_not_always_200 :
    (∀ p ∈ exStore.posts, p._id ≠ "zz") ∧
    (router.delete (Env.failing 0 "cast failed") exStore
        (exReq "zz" ⟨none, none, none, none⟩ "u1")).2 = .threw "cast failed" ∧
    ¬ ∃ r, (router.delete (Env.failing 0 "cast failed") exStore
        (exReq "zz" ⟨none, none, none, none⟩ "u1")).2 = .responded r :=
  ⟨by decide, rfl, fun ⟨_, h⟩ => Outcome.noConfusion h⟩

/-! ## Password hashing -/

theorem toyBcrypt_lawful : toyBcrypt.Lawful := by
  intro rounds entropy data p
  rfl

theorem finite_char : Finite Char := by
  apply Finite.of_injective (fun c : Char => c.val.toBitVec.toFin)
  intro a b h
  exact Char.eq_of_val_eq (UInt32.eq_of_toBitVec_eq (BitVec.eq_of_toFin_eq h))

theorem finite_short_strings (n : Nat) : {h : String | h.length ≤ n}.Finite := by
  haveI := finite_char
  have hl : {l : List Char | l.length ≤ n}.Finite := List.finite_length_le Char n
  apply (hl.image String.mk).subset
  intro h hh
  exact ⟨h.data, hh, rfl⟩

theorem infinite_valid_passwords : {p : String | passwordMinLength ≤ p.length}.Infinite := by
  apply Set.infinite_of_injective_forall_mem
    (f := fun k : ℕ => String.mk (List.replicate (k + passwordMinLength) 'a'))
  · intro a b h
    have h2 := congrArg String.length h
    simp only [String.length, List.length_replicate] at h2
    omega
  · intro k
    show passwordMinLength ≤ (List.replicate (k + passwordMinLength) 'a').length
    rw [List.length_replicate]
    omega

/-- C6.  For every `bcrypt` and every User document whose `password` path is
not marked modified, the pre-save hook returns the document as it is (the
password and every other field), whatever salt randomness is at hand, and so
does any number of saves in a row.  For every document, the hook changes the
password only when the path is marked modified, and then the new password is
the hash of the old one under a fresh salt, the other fields staying as they
were. -/
theorem preSave_unmodified (B : Bcrypt) (this : UserDoc)
    (h : this.isModified "password" = false) :
    (∀ entropy, UserSchema.preSave B entropy this = this) ∧
    (∀ entropies : List Nat,
      entropies.foldl (fun doc e => UserSchema.preSave B e doc) this = this) ∧
    (∀ entropy (doc : UserDoc),
      (UserSchema.preSave B entropy doc).fields.password ≠ doc.fields.password →
      doc.isModified "password" = true) ∧
    (∀ entropy (doc : UserDoc), doc.isModified "password" = true →
      UserSchema.preSave B entropy doc =
        { doc with fields := { doc.fields with
            password := B.hash doc.fields.password (B.genSalt 10 entropy) } }) := by
  have h1 : ∀ entropy, UserSchema.preSave B entropy this = this := by
    intro entropy
    simp [UserSchema.preSave, h]
  refine ⟨h1, ?_, ?_, ?_⟩
  · intro entropies
    induction entropies with
    | nil => rfl
    | cons e es ih => rw [List.foldl_cons, h1 e]; exact ih
  · intro entropy doc hne
    by_contra hm
    have hm2 : doc.isModified "password" = false := by simpa using hm
    apply hne
    simp [UserSchema.preSave, hm2]
  · intro entropy doc hm
    simp [UserSchema.preSave, hm]

/-- Witness for C6: a loaded, unmodified user keeps its stored hash through
three saves. -/
theorem preSave_unmodified_witness :
    [1, 2, 3].foldl (fun doc e => UserSchema.preSave toyBcrypt e doc) exLoadedUser
      = exLoadedUser :=
  (preSave_unmodified toyBcrypt exLoadedUser rfl).2.1 [1, 2, 3]

/-- C5, as amended.  For every lawful `bcrypt`, every salt randomness and
every User document whose `password` path is marked modified and holds the
string `p` (valid or not): after the pre-save hook, `matchPassword(p)` returns
true, and for every string `q`, `matchPassword(q)` returns true exactly when
the hash of `q` under the salt of the save equals the stored hash; so it
returns false for every `q` whose salted hash differs from the stored one. -/
theorem password_round_trip (B : Bcrypt) (hB : B.Lawful) (entropy : Nat) (this : UserDoc)
    (p : String) (hp : this.fields.password = p)
    (hmod : this.isModified "password" = true) :
    (UserSchema.preSave B entropy this).fields.password = B.hash p (B.genSalt 10 entropy) ∧
    UserSchema.methods.matchPassword B (UserSchema.preSave B entropy this) p = true ∧
    (∀ q, UserSchema.methods.matchPassword B (UserSchema.preSave B entropy this) q = true ↔
      B.hash q (B.genSalt 10 entropy) = B.hash p (B.genSalt 10 entropy)) := by
  have hpw : (UserSchema.preSave B entropy this).fields.password
      = B.hash p (B.genSalt 10 entropy) := by
    simp [UserSchema.preSave, hmod, hp]
  refine ⟨hpw, ?_, ?_⟩
  · simp only [UserSchema.methods.matchPassword, hpw, hB 10 entropy p p, decide_True]
  · intro q
    simp only [UserSchema.methods.matchPassword, hpw, hB 10 entropy q p, decide_eq_true_eq]

/-- Witness for C5: carol registers with `secret1`; after the hook
`secret1` matches. -/
theorem password_round_trip_witness :
    UserSchema.methods.matchPassword toyBcrypt (UserSchema.preSave toyBcrypt 0 (exNewUser "secret1"))
      "secret1" = true :=
  (password_round_trip toyBcrypt toyBcrypt_lawful 0 (exNewUser "secret1") "secret1"
    rfl rfl).2.1

/-- Counterexample to C5 as stated, as its negation: no `bcrypt` whose hashes
have bounded length (those of the package have 60 characters) makes the claim
true.  Among the valid passwords, which are infinitely many, two different
ones have the same hash under the salt of a save, and each matches the hash
stored for the other. -/
theorem password_mismatch_not_for_all :
    ¬ ∃ (B : Bcrypt) (n : Nat), (∀ data salt, (B.hash data salt).length ≤ n) ∧
      ∀ (entropy : Nat) (this : UserDoc) (q : String),
        passwordMinLength ≤ this.fields.password.length →
        this.isModified "password" = true →
        UserSchema.methods.matchPassword B (UserSchema.preSave B entropy this)
          this.fields.password = true ∧
        (q ≠ this.fields.password →
          UserSchema.methods.matchPassword B (UserSchema.preSave B entropy this) q = false) := by
  rintro ⟨B, n, hlen, hclaim⟩
  obtain ⟨x, hx, y, hy, hxy, hf⟩ :=
    infinite_valid_passwords.exists_ne_map_eq_of_mapsTo
      (f := fun p => B.hash p (B.genSalt 10 0))
      (fun p _ => hlen p (B.genSalt 10 0)) (finite_short_strings n)
  have hfx : B.hash x (B.genSalt 10 0) = B.hash y (B.genSalt 10 0) := hf
  have hxm := (hclaim 0 (exNewUser x) y hx rfl).2 (Ne.symm hxy)
  have hym : UserSchema.methods.matchPassword B (UserSchema.preSave B 0 (exNewUser y)) y = true :=
    (hclaim 0 (exNewUser y) y hy rfl).1
  have e1 : (UserSchema.preSave B 0 (exNewUser x)).fields.password
      = B.hash x (B.genSalt 10 0) := rfl
  have e2 : (UserSchema.preSave B 0 (exNewUser y)).fields.password
      = B.hash y (B.genSalt 10 0) := rfl
  simp only [UserSchema.methods.matchPassword, e1] at hxm
  simp only [UserSchema.methods.matchPassword, e2] at hym
  rw [hfx, hym] at hxm
  cases hxm

/-! ## Shape of error bodies: proofs -/

theorem errorShape_notFound (m : String) : errorShape (notFound m).body = true := rfl

theorem errorShape_serverError (e : String) : errorShape (serverError e).body = true := rfl

theorem errorShape_validationFailed (errors : List JVal) :
    errorShape (validationFailed errors).body = false := rfl

theorem wellShaped_notFound (m : String) : (notFound m).wellShaped :=
  Or.inr ⟨Or.inl rfl, rfl⟩

theorem wellShaped_serverError (e : String) : (serverError e).wellShaped :=
  Or.inr ⟨Or.inr rfl, rfl⟩

theorem wellShaped_of_status (n : Nat) (body : JVal) (h : n < 400) :
    (Response.mk n body).wellShaped :=
  Or.inl h

theorem wellShaped_categoryGuard (env : Env) (s : Store) (req : Req) (r : Response)
    (h : updateBlog.categoryGuard env s req = some r) : r.wellShaped := by
  unfold updateBlog.categoryGuard at h
  split at h
  · split at h
    · cases h; exact wellShaped_serverError _
    · split at h
      · cases h; exact wellShaped_notFound _
      · cases h
  · cases h

/-- C10, as amended.  For every handler exported by the Blog controller and
every environment, store and request, a response with status 400 or above is
of one of two kinds.  Either its status is 404 or 500 and its body has
`success` equal to false, a `message`, and no key besides `success`,
`message` and `error`.  Or it is the answer of the validation guard of
`createBlog` or `updateBlog` to a request with validation errors: status 400
and body `{errors: [...]}`, which has neither `success` nor `message`. -/
theorem error_body_shape (h : BlogHandler) (env : Env) (s : Store) (req : Req)
    (herr : 400 ≤ (h.run env s req).2.status) :
    (((h.run env s req).2.status = 404 ∨ (h.run env s req).2.status = 500) ∧
      errorShape (h.run env s req).2.body = true) ∨
    ((h = .createBlog ∨ h = .updateBlog) ∧ req.validationErrors ≠ [] ∧
      (h.run env s req).2 = validationFailed req.validationErrors ∧
      (h.run env s req).2.body.keys = ["errors"]) := by
  have key : (h.run env s req).2.wellShaped ∨
      ((h = .createBlog ∨ h = .updateBlog) ∧ req.validationErrors ≠ [] ∧
        (h.run env s req).2 = validationFailed req.validationErrors) := by
    have hv : (!req.validationErrors.isEmpty) = true → req.validationErrors ≠ [] := by
      intro hne hnil
      rw [hnil] at hne
      cases hne
    cases h with
    | getBlogs =>
      left
      simp only [BlogHandler.run, getBlogs]
      split
      · exact wellShaped_serverError _
      · exact wellShaped_of_status _ _ (by decide)
    | getBlog =>
      left
      simp only [BlogHandler.run, getBlog]
      split
      · exact wellShaped_serverError _
      · split
        · exact wellShaped_notFound _
        · exact wellShaped_of_status _ _ (by decide)
    | createBlog =>
      simp only [BlogHandler.run, createBlog]
      split
      · rename_i hne
        exact Or.inr ⟨Or.inl trivial, hv hne, rfl⟩
      · left
        split
        · exact wellShaped_serverError _
        · split
          · exact wellShaped_notFound _
          · split
            · exact wellShaped_serverError _
            · split
              · exact wellShaped_serverError _
              · split
                · exact wellShaped_serverError _
                · exact wellShaped_of_status _ _ (by decide)
    | updateBlog =>
      simp only [BlogHandler.run, updateBlog]
      split
      · rename_i hne
        exact Or.inr ⟨Or.inr trivial, hv hne, rfl⟩
      · left
        split
        · exact wellShaped_serverError _
        · split
          · exact wellShaped_notFound _
          · split
            · rename_i r hr
              exact wellShaped_categoryGuard env s req r hr
            · split
              · exact wellShaped_serverError _
              · split
                · exact wellShaped_serverError _
                · exact wellShaped_of_status _ _ (by decide)
    | deleteBlog =>
      left
      simp only [BlogHandler.run, deleteBlog]
      split
      · exact wellShaped_serverError _
      · split
        · exact wellShaped_notFound _
        · split
          · exact wellShaped_serverError _
          · exact wellShaped_of_status _ _ (by decide)
    | getBlogsByCategory =>
      left
      simp only [BlogHandler.run, getBlogsByCategory]
      split
      · exact wellShaped_serverError _
      · split
        · exact wellShaped_notFound _
        · split
          · exact wellShaped_serverError _
          · exact wellShaped_of_status _ _ (by decide)
  rcases key with hw | ⟨hh, hne, hr⟩
  · rcases hw with hlt | hshape
    · omega
    · exact Or.inl hshape
  · exact Or.inr ⟨hh, hne, hr, by rw [hr]; rfl⟩

/-- Witness for C10: `getBlog` for the absent id `zz` answers 404 with a body
of the error shape. -/
theorem error_body_shape_witness :
    (BlogHandler.getBlog.run (Env.calm 5 "b2") exStore
        (exReq "zz" ⟨none, none, none, none⟩ "u1")).2.status = 404 ∧
    errorShape (BlogHandler.getBlog.run (Env.calm 5 "b2") exStore
        (exReq "zz" ⟨none, none, none, none⟩ "u1")).2.body = true :=
  match error_body_shape .getBlog (Env.calm 5 "b2") exStore
      (exReq "zz" ⟨none, none, none, none⟩ "u1") (by decide) with
  | Or.inl h => ⟨rfl, h.2⟩
  | Or.inr h => absurd h.1 (by decide)

/-- Counterexample to C10 as stated: `createBlog` answers a request that
carries a validation error with status 400 and the body `{errors: [...]}`,
which has no `success` field, no `message` field, and the key `errors`. -/
theorem validation_error_body_has_other_shape :
    400 ≤ (BlogHandler.createBlog.run (Env.calm 5 "b2") exStore exInvalidReq).2.status ∧
    (BlogHandler.createBlog.run (Env.calm 5 "b2") exStore exInvalidReq).2.body.keys
      = ["errors"] ∧
    ((BlogHandler.createBlog.run (Env.calm 5 "b2") exStore exInvalidReq).2.body.field
      "success").isNone = true ∧
    ((BlogHandler.createBlog.run (Env.calm 5 "b2") exStore exInvalidReq).2.body.field
      "message").isNone = true ∧
    errorShape (BlogHandler.createBlog.run (Env.calm 5 "b2") exStore exInvalidReq).2.body
      = false :=
  ⟨by decide, rfl, rfl, rfl, rfl⟩

end PCDocs
